import Mathlib

/-!
Verification development for the `thermostate` package.

The repository ships a units-aware convenience layer (`State`) over an
external thermophysical-properties engine (CoolProp) and the Pint units
library.  The Python implementation of the `State` class itself is not
part of the material under `src/` (only packaging metadata, CI
configuration and an example notebook are), so the layer is modelled
here from the specification: quantities carry a magnitude and a unit, a
unit carries a physical dimension and a conversion factor to SI base
units, and `State.create` validates the substance and the property pair
before dispatching the SI-converted values to an abstract property
solver.  The external solver is a parameter of the model.
-/

namespace ThermoState

/-- Modelled from the spec: physical dimension of a quantity, as integer
exponents over the base dimensions mass, length, time and temperature
(the dimensions needed for intensive thermodynamic properties). The real
system delegates this bookkeeping to Pint, which is not part of the
repository sources. -/
structure Dimension where
  mass : Int
  length : Int
  time : Int
  temp : Int
deriving DecidableEq, Repr

/-- Componentwise sum of dimension exponents (dimension of a product). -/
def Dimension.add (d1 d2 : Dimension) : Dimension :=
  ⟨d1.mass + d2.mass, d1.length + d2.length, d1.time + d2.time, d1.temp + d2.temp⟩

/-- Componentwise difference of dimension exponents (dimension of a quotient). -/
def Dimension.sub (d1 d2 : Dimension) : Dimension :=
  ⟨d1.mass - d2.mass, d1.length - d2.length, d1.time - d2.time, d1.temp - d2.temp⟩

/-- The dimension of a pure number. -/
def Dimension.one : Dimension := ⟨0, 0, 0, 0⟩

/-- Modelled from the spec: a unit of measure, as Pint represents one: a
physical dimension together with a positive conversion factor to the
coherent SI base unit of that dimension. -/
structure UnitT where
  dim : Dimension
  factor : ℚ
  factor_pos : 0 < factor

/-- Product of two units. -/
def UnitT.mul (u1 u2 : UnitT) : UnitT :=
  ⟨u1.dim.add u2.dim, u1.factor * u2.factor, mul_pos u1.factor_pos u2.factor_pos⟩

/-- Quotient of two units. -/
def UnitT.div (u1 u2 : UnitT) : UnitT :=
  ⟨u1.dim.sub u2.dim, u1.factor / u2.factor, div_pos u1.factor_pos u2.factor_pos⟩

/-- Modelled from the spec: a Pint quantity, a numeric magnitude with a
unit attached. -/
structure Quantity where
  mag : ℚ
  unit : UnitT

/-- The value of a quantity expressed in SI base units. -/
def Quantity.baseValue (q : Quantity) : ℚ := q.mag * q.unit.factor

/-- Modelled from the spec: Pint unit conversion, `q.to(u)`: succeeds when
the target unit has the same physical dimension and re-expresses the same
physical value in the new unit; raises (returns `none`) otherwise. -/
def Quantity.to (q : Quantity) (u : UnitT) : Option Quantity :=
  if q.unit.dim = u.dim then some ⟨q.baseValue / u.factor, u⟩ else none

/-- Two quantities represent the same physical value: same dimension and
the same value once both are expressed in SI base units.  This is Pint
equality of quantities. -/
def Quantity.equiv (q1 q2 : Quantity) : Prop :=
  q1.unit.dim = q2.unit.dim ∧ q1.baseValue = q2.baseValue

instance (q1 q2 : Quantity) : Decidable (q1.equiv q2) := by
  unfold Quantity.equiv; infer_instance

/-- Pint product of two quantities. -/
def Quantity.mul (q1 q2 : Quantity) : Quantity :=
  ⟨q1.mag * q2.mag, q1.unit.mul q2.unit⟩

/-- Pint quotient of two quantities. -/
def Quantity.div (q1 q2 : Quantity) : Quantity :=
  ⟨q1.mag / q2.mag, q1.unit.div q2.unit⟩

/-- Pint difference: the second quantity is converted to the units of the
first; fails on a dimension mismatch. -/
def Quantity.sub (q1 q2 : Quantity) : Option Quantity :=
  if q2.unit.dim = q1.unit.dim then
    some ⟨q1.mag - q2.baseValue / q1.unit.factor, q1.unit⟩
  else none

/-- Pint sum: the second quantity is converted to the units of the first;
fails on a dimension mismatch. -/
def Quantity.add (q1 q2 : Quantity) : Option Quantity :=
  if q2.unit.dim = q1.unit.dim then
    some ⟨q1.mag + q2.baseValue / q1.unit.factor, q1.unit⟩
  else none

/-- Dimension of a temperature. -/
def dimTemperature : Dimension := ⟨0, 0, 0, 1⟩

/-- Dimension of a pressure (mass per length per time squared). -/
def dimPressure : Dimension := ⟨1, -1, -2, 0⟩

/-- Dimension of a specific energy (length squared per time squared). -/
def dimSpecEnergy : Dimension := ⟨0, 2, -2, 0⟩

/-- Dimension of a specific entropy (specific energy per temperature). -/
def dimSpecEntropy : Dimension := ⟨0, 2, -2, -1⟩

/-- Dimension of a specific volume (length cubed per mass). -/
def dimSpecVolume : Dimension := ⟨-1, 3, 0, 0⟩

/-- The kelvin. -/
def kelvin : UnitT := ⟨dimTemperature, 1, one_pos⟩

/-- The pascal. -/
def pascal : UnitT := ⟨dimPressure, 1, one_pos⟩

/-- The bar, 100000 pascal. -/
def bar : UnitT := ⟨dimPressure, 100000, by norm_num⟩

/-- Kilojoule per kilogram. -/
def kJperKg : UnitT := ⟨dimSpecEnergy, 1000, by norm_num⟩

/-- Kilojoule per kilogram-kelvin. -/
def kJperKgK : UnitT := ⟨dimSpecEntropy, 1000, by norm_num⟩

/-- The dimensionless unit. -/
def oneUnit : UnitT := ⟨Dimension.one, 1, one_pos⟩

/-- Modelled from the spec: the intensive properties a state can be
specified by and retrieved as attributes: temperature `T`, pressure `p`,
specific internal energy `u`, specific entropy `s`, specific volume `v`,
specific enthalpy `h` and quality `x`. -/
inductive PropKey where
  | T
  | p
  | u
  | s
  | v
  | h
  | x
deriving DecidableEq, Repr

/-- The physical dimension each property key carries. -/
def PropKey.dimOf : PropKey → Dimension
  | .T => dimTemperature
  | .p => dimPressure
  | .u => dimSpecEnergy
  | .s => dimSpecEntropy
  | .v => dimSpecVolume
  | .h => dimSpecEnergy
  | .x => Dimension.one

/-- The coherent SI base unit used internally for a property key. -/
def PropKey.siUnit (k : PropKey) : UnitT := ⟨k.dimOf, 1, one_pos⟩

/-- Modelled from the spec: the pure substances supported by name.  The
spec scopes state definition to supported pure substances; the notebook
uses the name air. -/
def supportedSubstances : List String :=
  ["air", "water", "ammonia", "propane", "R134a", "oxygen", "nitrogen", "carbondioxide"]

/-- Modelled from the spec: the validation layer's check of which pairs
of properties are allowed to define a state.  The spec admits any two
independent intensive properties; a property paired with itself does not
determine a state and is rejected. -/
def allowedPair (k1 k2 : PropKey) : Bool := k1 ≠ k2

/-- Modelled from the spec: the external CoolProp property solver, an
engine outside this repository.  Given a substance name, the pair of
specified property keys and their values in SI base units, it returns
the value of every intensive property of the resolved state, in SI base
units. -/
abbrev Solver := String → PropKey → PropKey → ℚ → ℚ → PropKey → ℚ

/-- Modelled from the spec: a constructed thermodynamic state: the
substance and the resolved value of every intensive property, in SI
base units. -/
structure State where
  substance : String
  props : PropKey → ℚ

/-- Modelled from the spec: the `State` constructor of `thermostate`,
which is absent from the sources under `src/`.  It validates the
substance name and the pair of specifying properties, checks each input
quantity carries the physical dimension of its keyword, converts the
inputs to SI base units via Pint, and only then dispatches them to the
property solver.  Any failed check raises (returns `none`) before the
solver is consulted. -/
def State.create (solver : Solver) (sub : String) (k1 k2 : PropKey)
    (v1 v2 : Quantity) : Option State :=
  if sub ∈ supportedSubstances then
    if allowedPair k1 k2 then
      if v1.unit.dim = k1.dimOf ∧ v2.unit.dim = k2.dimOf then
        some ⟨sub, solver sub k1 k2 v1.baseValue v2.baseValue⟩
      else none
    else none
  else none

/-- Modelled from the spec: attribute access on a state, e.g. `st.h`:
the resolved value of the property with its SI base unit attached as a
Pint quantity. -/
def State.get (st : State) (k : PropKey) : Quantity :=
  ⟨st.props k, k.siUnit⟩

/-- The solver reports back, among the resolved properties, the very
values it was given for the two specifying properties.  CoolProp's
solver has this property for any pair that determines a state. -/
def Solver.reproduces (f : Solver) : Prop :=
  ∀ sub k1 k2 a b, allowedPair k1 k2 = true →
    f sub k1 k2 a b k1 = a ∧ f sub k1 k2 a b k2 = b

/-- The solver identifies states consistently across property pairs:
re-solving from any allowed pair of a resolved state's own property
values reproduces every property of that state.  This is the sense in
which any two independent intensive properties define the state. -/
def Solver.consistent (f : Solver) : Prop :=
  ∀ sub k1 k2 a b k1' k2', allowedPair k1' k2' = true →
    f sub k1' k2' (f sub k1 k2 a b k1') (f sub k1 k2 a b k2') = f sub k1 k2 a b

/-- Coefficients of a toy linear property model used to build a concrete
solver: property `k` of the underlying state `(t, r)` has value
`c.1 * t + c.2 * r`.  Any two distinct keys have linearly independent
coefficient rows, so any allowed pair determines the state. -/
def coeff : PropKey → ℚ × ℚ
  | .T => (1, 0)
  | .p => (0, 1)
  | .u => (1, 1)
  | .s => (1, -1)
  | .v => (1, 2)
  | .h => (2, 1)
  | .x => (1, 3)

/-- Value of property `k` at underlying state `st` in the toy model. -/
def stateVal (st : ℚ × ℚ) (k : PropKey) : ℚ :=
  (coeff k).1 * st.1 + (coeff k).2 * st.2

/-- Invert the toy model: recover the underlying state from the values
`a` and `b` of two distinct properties, by Cramer's rule. -/
def solve2 (k1 k2 : PropKey) (a b : ℚ) : ℚ × ℚ :=
  ((a * (coeff k2).2 - b * (coeff k1).2) /
      ((coeff k1).1 * (coeff k2).2 - (coeff k2).1 * (coeff k1).2),
   ((coeff k1).1 * b - (coeff k2).1 * a) /
      ((coeff k1).1 * (coeff k2).2 - (coeff k2).1 * (coeff k1).2))

/-- A concrete, fully computable stand-in solver: resolve the underlying
toy state from the given pair and report every property's value there. -/
def linSolver : Solver := fun _ k1 k2 a b => stateVal (solve2 k1 k2 a b)

theorem solve2_stateVal (st : ℚ × ℚ) (k1 k2 : PropKey) (h : k1 ≠ k2) :
    solve2 k1 k2 (stateVal st k1) (stateVal st k2) = st := by
  obtain ⟨t, r⟩ := st
  cases k1 <;> cases k2 <;> simp only [ne_eq, not_true_eq_false] at h <;>
    simp only [solve2, stateVal, coeff, Prod.mk.injEq] <;> constructor <;> ring

theorem stateVal_solve2_left (k1 k2 : PropKey) (a b : ℚ) (h : k1 ≠ k2) :
    stateVal (solve2 k1 k2 a b) k1 = a := by
  cases k1 <;> cases k2 <;> simp only [ne_eq, not_true_eq_false] at h <;>
    simp only [solve2, stateVal, coeff] <;> ring

theorem stateVal_solve2_right (k1 k2 : PropKey) (a b : ℚ) (h : k1 ≠ k2) :
    stateVal (solve2 k1 k2 a b) k2 = b := by
  cases k1 <;> cases k2 <;> simp only [ne_eq, not_true_eq_false] at h <;>
    simp only [solve2, stateVal, coeff] <;> ring

theorem linSolver_reproduces : Solver.reproduces linSolver := by
  intro sub k1 k2 a b hk
  have h : k1 ≠ k2 := by
    intro he; rw [he] at hk; simp [allowedPair] at hk
  exact ⟨stateVal_solve2_left k1 k2 a b h, stateVal_solve2_right k1 k2 a b h⟩

theorem linSolver_consistent : Solver.consistent linSolver := by
  intro sub k1 k2 a b k1' k2' hk
  have h : k1' ≠ k2' := by
    intro he; rw [he] at hk; simp [allowedPair] at hk
  show stateVal (solve2 k1' k2'
      (stateVal (solve2 k1 k2 a b) k1') (stateVal (solve2 k1 k2 a b) k2')) = _
  rw [solve2_stateVal (solve2 k1 k2 a b) k1' k2' h]
  rfl

/-- The variables of the Brayton-cycle notebook that are live across the
pressure-ratio loop: the fixed quantities `s_1`, `p_1`, `h_1`, `T_3`
computed before the loop, and the names the loop body reassigns each
iteration. -/
structure Env where
  s1 : Quantity
  p1 : Quantity
  h1 : Quantity
  T3 : Quantity
  s2 : Quantity
  p2 : Quantity
  h2 : Quantity
  T2 : Quantity
  p3 : Quantity
  h3 : Quantity
  s3 : Quantity
  s4 : Quantity
  p4 : Quantity
  h4 : Quantity
  T4 : Quantity
  Wc : Quantity
  Wt : Quantity
  Wnet : Quantity
  Q23 : Quantity
  eta : Quantity

/-- One iteration of the notebook's pressure-ratio loop, statement by
statement: fix state 2 from `(p, s)`, state 3 from `(p, T)`, state 4
from `(p, s)`, then compute the works and the thermal efficiency.  A
raised exception anywhere in the body propagates as `none`. -/
def loopBody (f : Solver) (sub : String) (env : Env) (pratio : Quantity) :
    Option Env := do
  let s2 := env.s1
  let p2 := env.p1.mul pratio
  let st2 ← State.create f sub .p .s p2 s2
  let h2 ← (st2.get .h).to kJperKg
  let T2 := st2.get .T
  let p3 := p2
  let st3 ← State.create f sub .p .T p3 env.T3
  let h3 ← (st3.get .h).to kJperKg
  let s3 ← (st3.get .s).to kJperKgK
  let s4 := s3
  let p4 := env.p1
  let st4 ← State.create f sub .p .s p4 s4
  let h4 ← (st4.get .h).to kJperKg
  let T4 := st4.get .T
  let Wc ← env.h1.sub h2
  let Wt ← h3.sub h4
  let Wnet ← Wc.add Wt
  let Q23 ← h3.sub h2
  let eta := Wnet.div Q23
  some { env with
    s2 := s2, p2 := p2, h2 := h2, T2 := T2, p3 := p3, h3 := h3, s3 := s3,
    s4 := s4, p4 := p4, h4 := h4, T4 := T4, Wc := Wc, Wt := Wt,
    Wnet := Wnet, Q23 := Q23, eta := eta }

/-- The notebook loop: run the body once per pressure ratio in the list,
threading the variable environment through. -/
def runLoop (f : Solver) (sub : String) (env : Env) (rs : List Quantity) :
    Option Env :=
  rs.foldlM (loopBody f sub) env

theorem loopBody_frame (f : Solver) (sub : String) (env : Env)
    (r : Quantity) (env' : Env) (h : loopBody f sub env r = some env') :
    env'.s1 = env.s1 ∧ env'.p1 = env.p1 ∧ env'.h1 = env.h1 ∧ env'.T3 = env.T3 := by
  simp only [loopBody, bind, Option.bind_eq_some, Option.some.injEq] at h
  obtain ⟨a1, -, a2, -, a3, -, a4, -, a5, -, a6, -, a7, -, a8, -, a9, -,
    a10, -, a11, -, henv⟩ := h
  subst henv
  exact ⟨rfl, rfl, rfl, rfl⟩

theorem runLoop_frame (f : Solver) (sub : String) (env : Env)
    (rs : List Quantity) (env' : Env) (h : runLoop f sub env rs = some env') :
    env'.s1 = env.s1 ∧ env'.p1 = env.p1 ∧ env'.h1 = env.h1 ∧ env'.T3 = env.T3 := by
  induction rs generalizing env with
  | nil =>
    simp only [runLoop, List.foldlM, pure, Option.some.injEq] at h
    subst h
    exact ⟨rfl, rfl, rfl, rfl⟩
  | cons r rs ih =>
    simp only [runLoop, List.foldlM, bind, Option.bind_eq_some] at h
    obtain ⟨e1, he1, hrest⟩ := h
    obtain ⟨hs, hp, hh, hT⟩ := loopBody_frame f sub env r e1 he1
    obtain ⟨hs2, hp2, hh2, hT2⟩ := ih e1 hrest
    exact ⟨hs2.trans hs, hp2.trans hp, hh2.trans hh, hT2.trans hT⟩

theorem create_eq_some {f : Solver} {sub : String} {k1 k2 : PropKey}
    {v1 v2 : Quantity} {st : State}
    (h : State.create f sub k1 k2 v1 v2 = some st) :
    sub ∈ supportedSubstances ∧ allowedPair k1 k2 = true ∧
    v1.unit.dim = k1.dimOf ∧ v2.unit.dim = k2.dimOf ∧
    st = ⟨sub, f sub k1 k2 v1.baseValue v2.baseValue⟩ := by
  unfold State.create at h
  split at h
  case isTrue hsub =>
    split at h
    case isTrue hk =>
      split at h
      case isTrue hd =>
        exact ⟨hsub, hk, hd.1, hd.2, (Option.some.inj h).symm⟩
      case isFalse hd => exact Option.noConfusion h
    case isFalse hk => exact Option.noConfusion h
  case isFalse hsub => exact Option.noConfusion h

theorem get_baseValue (st : State) (k : PropKey) :
    (st.get k).baseValue = st.props k := mul_one _

theorem get_unit_dim (st : State) (k : PropKey) :
    (st.get k).unit.dim = k.dimOf := rfl

theorem to_of_dim_eq (q : Quantity) (u : UnitT) (hu : q.unit.dim = u.dim) :
    q.to u = some ⟨q.baseValue / u.factor, u⟩ := by
  unfold Quantity.to
  simp [hu]

/-- C1: for every supported substance and every allowed pair of two
independent intensive properties supplied with values of the proper
dimensions, `State.create` succeeds, and every derived property of the
resulting state is retrievable as a dimensioned quantity. -/
theorem create_succeeds_on_allowed_pair (f : Solver) (sub : String)
    (k1 k2 : PropKey) (v1 v2 : Quantity)
    (hsub : sub ∈ supportedSubstances) (hk : allowedPair k1 k2 = true)
    (h1 : v1.unit.dim = k1.dimOf) (h2 : v2.unit.dim = k2.dimOf) :
    ∃ st, State.create f sub k1 k2 v1 v2 = some st ∧
      ∀ k, (st.get k).unit.dim = k.dimOf := by
  refine ⟨⟨sub, f sub k1 k2 v1.baseValue v2.baseValue⟩, ?_, fun k => rfl⟩
  unfold State.create
  simp [hsub, hk, h1, h2]

/-- Witness for C1: fixing the notebook's state 1 of air from temperature
300 K and pressure 1 bar succeeds. -/
theorem create_succeeds_on_allowed_pair_witness :
    ∃ st, State.create linSolver "air" .T .p ⟨300, kelvin⟩ ⟨1, bar⟩ = some st ∧
      ∀ k, (st.get k).unit.dim = k.dimOf :=
  create_succeeds_on_allowed_pair linSolver "air" .T .p ⟨300, kelvin⟩ ⟨1, bar⟩
    (by decide) (by decide) rfl rfl

/-- C2: a pair of properties the validation layer does not allow is
rejected: construction fails, and the outcome does not depend on the
property solver at all, so no solve is dispatched for such a pair. -/
theorem disallowed_pair_rejected (f g : Solver) (sub : String)
    (k1 k2 : PropKey) (v1 v2 : Quantity) (hk : allowedPair k1 k2 = false) :
    State.create f sub k1 k2 v1 v2 = none ∧
    State.create f sub k1 k2 v1 v2 = State.create g sub k1 k2 v1 v2 := by
  unfold State.create
  simp [hk]

/-- Witness for C2: specifying temperature twice is rejected for air,
identically under two different solvers. -/
theorem disallowed_pair_rejected_witness :
    State.create linSolver "air" .T .T ⟨300, kelvin⟩ ⟨400, kelvin⟩ = none ∧
    State.create linSolver "air" .T .T ⟨300, kelvin⟩ ⟨400, kelvin⟩ =
      State.create (fun _ _ _ _ _ _ => 0) "air" .T .T ⟨300, kelvin⟩ ⟨400, kelvin⟩ :=
  disallowed_pair_rejected linSolver (fun _ _ _ _ _ _ => 0) "air" .T .T
    ⟨300, kelvin⟩ ⟨400, kelvin⟩ (by decide)

/-- C3: every property retrieved from a state carries the unit dimension
proper to that property, and converting it with `.to` into any unit of
that dimension succeeds and yields a quantity representing the same
physical value. -/
theorem get_has_unit_and_to_preserves (st : State) (k : PropKey) (u : UnitT)
    (hu : u.dim = k.dimOf) :
    (st.get k).unit.dim = k.dimOf ∧
    ∃ q', (st.get k).to u = some q' ∧ (st.get k).equiv q' := by
  refine ⟨rfl, ⟨(st.get k).baseValue / u.factor, u⟩,
    to_of_dim_eq (st.get k) u (by rw [get_unit_dim, hu]), ?_, ?_⟩
  · rw [get_unit_dim, hu]
  · show (st.get k).baseValue = ((st.get k).baseValue / u.factor) * u.factor
    rw [div_mul_cancel₀ _ (ne_of_gt u.factor_pos)]

/-- Witness for C3: on a concrete air state, the retrieved enthalpy has
the dimension of a specific energy and `.to` kilojoule-per-kilogram
returns the same physical value. -/
theorem get_has_unit_and_to_preserves_witness :
    ((State.mk "air" (linSolver "air" .T .p 300 100000)).get .h).unit.dim =
      PropKey.dimOf .h ∧
    ∃ q', ((State.mk "air" (linSolver "air" .T .p 300 100000)).get .h).to kJperKg =
        some q' ∧
      ((State.mk "air" (linSolver "air" .T .p 300 100000)).get .h).equiv q' :=
  get_has_unit_and_to_preserves (State.mk "air" (linSolver "air" .T .p 300 100000))
    .h kJperKg rfl

/-- C4: every property retrieved from a successfully constructed state is
exactly the property solver's solution for the dispatched substance and
SI-converted input pair, carried in the unit attached at retrieval; the
layer adds no computation of its own. -/
theorem get_equals_solver_solution (f : Solver) (sub : String)
    (k1 k2 : PropKey) (v1 v2 : Quantity) (st : State)
    (h : State.create f sub k1 k2 v1 v2 = some st) (k : PropKey) :
    st.get k = ⟨f sub k1 k2 v1.baseValue v2.baseValue k, k.siUnit⟩ := by
  obtain ⟨-, -, -, -, hst⟩ := create_eq_some h
  rw [hst]
  rfl

/-- Witness for C4: on the notebook's state 1 inputs, the retrieved
entropy is the solver's entropy solution with its SI unit attached. -/
theorem get_equals_solver_solution_witness :
    (State.mk "air" (linSolver "air" .T .p (Quantity.baseValue ⟨300, kelvin⟩)
        (Quantity.baseValue ⟨1, bar⟩))).get .s =
      ⟨linSolver "air" .T .p (Quantity.baseValue ⟨300, kelvin⟩)
        (Quantity.baseValue ⟨1, bar⟩) .s, PropKey.siUnit .s⟩ :=
  get_equals_solver_solution linSolver "air" .T .p ⟨300, kelvin⟩ ⟨1, bar⟩
    (State.mk "air" (linSolver "air" .T .p (Quantity.baseValue ⟨300, kelvin⟩)
      (Quantity.baseValue ⟨1, bar⟩)))
    rfl .s

/-- C5: construction is independent of the units the inputs are expressed
in: physically equal input quantities, in any compatible units, produce
identical construction results. -/
theorem create_unit_independent (f : Solver) (sub : String) (k1 k2 : PropKey)
    (v1 v1' v2 v2' : Quantity) (h1 : v1.equiv v1') (h2 : v2.equiv v2') :
    State.create f sub k1 k2 v1 v2 = State.create f sub k1 k2 v1' v2' := by
  unfold State.create
  rw [h1.1, h2.1, h1.2, h2.2]

/-- Witness for C5: pressure given as 1 bar or as 100000 pascal yields
the same constructed state. -/
theorem create_unit_independent_witness :
    State.create linSolver "air" .p .T ⟨1, bar⟩ ⟨300, kelvin⟩ =
      State.create linSolver "air" .p .T ⟨100000, pascal⟩ ⟨300, kelvin⟩ :=
  create_unit_independent linSolver "air" .p .T ⟨1, bar⟩ ⟨100000, pascal⟩
    ⟨300, kelvin⟩ ⟨300, kelvin⟩
    ⟨rfl, by norm_num [Quantity.baseValue, bar, pascal]⟩ ⟨rfl, rfl⟩

/-- The notebook's state 1: air fixed from 300 kelvin and 1 bar. -/
def st1Air : State :=
  State.mk "air" (linSolver "air" .T .p (Quantity.baseValue ⟨300, kelvin⟩)
    (Quantity.baseValue ⟨1, bar⟩))

/-- C6: state identification is consistent across property pairs: when
the solver identifies states consistently, re-constructing from any
allowed pair of a state's own retrieved property values yields a state
all of whose properties equal the original's. -/
theorem state_consistent_across_pairs (f : Solver)
    (hf : Solver.consistent f) (sub : String) (k1 k2 : PropKey)
    (v1 v2 : Quantity) (st : State)
    (h : State.create f sub k1 k2 v1 v2 = some st) (k1' k2' : PropKey)
    (hk : allowedPair k1' k2' = true) :
    ∃ st2, State.create f sub k1' k2' (st.get k1') (st.get k2') = some st2 ∧
      ∀ k, st2.get k = st.get k := by
  obtain ⟨hsub, -, -, -, hst⟩ := create_eq_some h
  subst hst
  refine ⟨⟨sub, f sub k1' k2'
      (f sub k1 k2 v1.baseValue v2.baseValue k1')
      (f sub k1 k2 v1.baseValue v2.baseValue k2')⟩, ?_, ?_⟩
  · unfold State.create
    simp [hsub, hk, get_unit_dim, get_baseValue]
  · intro k
    simp only [State.get]
    rw [hf sub k1 k2 v1.baseValue v2.baseValue k1' k2' hk]

/-- Witness for C6: re-fixing the notebook's state 1 of air from its own
retrieved pressure and entropy reproduces every property of state 1. -/
theorem state_consistent_across_pairs_witness :
    ∃ st2, State.create linSolver "air" .p .s (st1Air.get .p) (st1Air.get .s) =
        some st2 ∧ ∀ k, st2.get k = st1Air.get k :=
  state_consistent_across_pairs linSolver linSolver_consistent "air" .T .p
    ⟨300, kelvin⟩ ⟨1, bar⟩ st1Air rfl .p .s (by decide)

/-- C7: state definition is scoped to supported pure substances named by
string: an unsupported name makes construction fail, and a supported
name (with an allowed pair of properly dimensioned inputs) makes it
proceed to a state. -/
theorem substance_validation (f : Solver) (sub : String) (k1 k2 : PropKey)
    (v1 v2 : Quantity) :
    (sub ∉ supportedSubstances → State.create f sub k1 k2 v1 v2 = none) ∧
    (sub ∈ supportedSubstances → allowedPair k1 k2 = true →
      v1.unit.dim = k1.dimOf → v2.unit.dim = k2.dimOf →
      (State.create f sub k1 k2 v1 v2).isSome = true) := by
  constructor
  · intro hns
    unfold State.create
    simp [hns]
  · intro hsub hk h1 h2
    unfold State.create
    simp [hsub, hk, h1, h2]

/-- Witness for C7: the name unobtanium is rejected while air yields a
state from the same inputs. -/
theorem substance_validation_witness :
    State.create linSolver "unobtanium" .T .p ⟨300, kelvin⟩ ⟨1, bar⟩ = none ∧
    (State.create linSolver "air" .T .p ⟨300, kelvin⟩ ⟨1, bar⟩).isSome = true :=
  ⟨(substance_validation linSolver "unobtanium" .T .p ⟨300, kelvin⟩ ⟨1, bar⟩).1
      (by decide),
   (substance_validation linSolver "air" .T .p ⟨300, kelvin⟩ ⟨1, bar⟩).2
      (by decide) (by decide) rfl rfl⟩

/-- C8: the two specifying properties round-trip: when the solver reports
back its given inputs, reading the two specifying attributes of the
constructed state returns quantities physically equal to the constructor
inputs. -/
theorem specified_inputs_round_trip (f : Solver) (hf : Solver.reproduces f)
    (sub : String) (k1 k2 : PropKey) (v1 v2 : Quantity) (st : State)
    (h : State.create f sub k1 k2 v1 v2 = some st) :
    (st.get k1).equiv v1 ∧ (st.get k2).equiv v2 := by
  obtain ⟨-, hk, h1, h2, hst⟩ := create_eq_some h
  subst hst
  obtain ⟨hr1, hr2⟩ := hf sub k1 k2 v1.baseValue v2.baseValue hk
  exact ⟨⟨(get_unit_dim _ _).trans h1.symm, (get_baseValue _ _).trans hr1⟩,
    ⟨(get_unit_dim _ _).trans h2.symm, (get_baseValue _ _).trans hr2⟩⟩

/-- Witness for C8: the notebook's state 1 reads back its constructor
inputs, 300 kelvin and 1 bar. -/
theorem specified_inputs_round_trip_witness :
    (st1Air.get .T).equiv ⟨300, kelvin⟩ ∧ (st1Air.get .p).equiv ⟨1, bar⟩ :=
  specified_inputs_round_trip linSolver linSolver_reproduces "air" .T .p
    ⟨300, kelvin⟩ ⟨1, bar⟩ st1Air rfl

/-- C9: construction and retrieval are deterministic: two constructions
from the same substance and the same specifying values agree on the
substance and on every retrieved property. -/
theorem construction_deterministic (f : Solver) (sub : String)
    (k1 k2 : PropKey) (v1 v2 : Quantity) (st1 st2 : State)
    (h1 : State.create f sub k1 k2 v1 v2 = some st1)
    (h2 : State.create f sub k1 k2 v1 v2 = some st2) :
    st1.substance = st2.substance ∧ ∀ k, st1.get k = st2.get k := by
  have hst : st1 = st2 := Option.some.inj (h1.symm.trans h2)
  subst hst
  exact ⟨rfl, fun k => rfl⟩

/-- Witness for C9: two constructions of the notebook's state 1 agree on
every property. -/
theorem construction_deterministic_witness :
    st1Air.substance = st1Air.substance ∧ ∀ k, st1Air.get k = st1Air.get k :=
  construction_deterministic linSolver "air" .T .p ⟨300, kelvin⟩ ⟨1, bar⟩
    st1Air st1Air rfl rfl

/-- C10: the notebook's pressure-ratio loop leaves the caller's
previously computed quantities untouched: after any number of
iterations, the fixed quantities `s_1`, `p_1`, `h_1` and `T_3` read back
unchanged. -/
theorem loop_preserves_caller_quantities (f : Solver) (sub : String)
    (env : Env) (rs : List Quantity) (env' : Env)
    (h : runLoop f sub env rs = some env') :
    env'.s1 = env.s1 ∧ env'.p1 = env.p1 ∧ env'.h1 = env.h1 ∧
      env'.T3 = env.T3 :=
  runLoop_frame f sub env rs env' h

/-- A placeholder quantity for the loop-local variables before the loop. -/
def q0 : Quantity := ⟨0, oneUnit⟩

/-- The notebook's variable environment just before the loop. -/
def env0 : Env :=
  { s1 := ⟨389/100, kJperKgK⟩, p1 := ⟨1, bar⟩, h1 := ⟨4263/10, kJperKg⟩,
    T3 := ⟨1700, kelvin⟩, s2 := q0, p2 := q0, h2 := q0, T2 := q0, p3 := q0,
    h3 := q0, s3 := q0, s4 := q0, p4 := q0, h4 := q0, T4 := q0, Wc := q0,
    Wt := q0, Wnet := q0, Q23 := q0, eta := q0 }

/-- Witness for C10: one concrete iteration at pressure ratio 8 runs to
completion and leaves `s_1`, `p_1`, `h_1` and `T_3` unchanged. -/
theorem loop_preserves_caller_quantities_witness :
    ∃ env', runLoop linSolver "air" env0 [⟨8, oneUnit⟩] = some env' ∧
      env'.s1 = env0.s1 ∧ env'.p1 = env0.p1 ∧ env'.h1 = env0.h1 ∧
        env'.T3 = env0.T3 := by
  have hs : (runLoop linSolver "air" env0 [⟨8, oneUnit⟩]).isSome = true := by
    decide
  exact ⟨_, (Option.some_get hs).symm,
    loop_preserves_caller_quantities linSolver "air" env0 [⟨8, oneUnit⟩] _
      (Option.some_get hs).symm⟩

end ThermoState
